import Mathlib

/-!
Verification of the GraalFaaS contract specimens.

The repository ships two Python source units, `src/examples/python/handler.py`
(the no-dependency specimen) and `src/examples/python/handler-w-deps.py`
(the dependency-using specimen).  Both define a single entry point
`handler(event)` over adapted wire values (JSON-like values produced by the
Event Adapter).  This file shallowly embeds the Python values and the two
handler bodies, plus spec-modelled parts of the host where the repository
ships no implementation, and proves the specification claims about them.
-/

namespace GraalFaaS

/-- A Python value as the handlers can receive and produce it: the adapted
wire values of the Event Adapter (JSON objects, arrays, strings, numbers,
booleans and null).  Mappings carry string keys, as decoded wire objects do,
with distinct keys; numbers are modelled by integers (the handlers never
compute with numbers, they only carry or render them). -/
inductive PyVal where
  | none
  | bool (b : Bool)
  | int (n : Int)
  | str (s : String)
  | list (xs : List PyVal)
  | dict (kvs : List (String × PyVal))
deriving Repr

/-- `isinstance(event, dict)` for the embedded values. -/
def PyVal.isDict : PyVal → Bool
  | .dict _ => true
  | _ => false

/-- First-match lookup in a decoded mapping (Python `dict` lookup; decoded
wire objects carry each key once). -/
def lookupKey : List (String × PyVal) → String → Option PyVal
  | [], _ => Option.none
  | (k, v) :: rest, key => if k = key then Option.some v else lookupKey rest key

/-- Escape one character of a Python string the way CPython `repr` does,
given the quote character chosen for the surrounding literal. -/
def pyEscapeChar (quote : Char) (c : Char) : String :=
  if c = Char.ofNat 92 then String.mk [Char.ofNat 92, Char.ofNat 92]
  else if c = quote then String.mk [Char.ofNat 92, quote]
  else if c = Char.ofNat 10 then String.mk [Char.ofNat 92, Char.ofNat 110]
  else if c = Char.ofNat 13 then String.mk [Char.ofNat 92, Char.ofNat 114]
  else if c = Char.ofNat 9 then String.mk [Char.ofNat 92, Char.ofNat 116]
  else if c.toNat < 32 ∨ c.toNat = 127 then
    String.mk [Char.ofNat 92, Char.ofNat 120,
      Nat.toDigits 16 c.toNat |>.headI,
      (Nat.toDigits 16 c.toNat).getLastI]
  else String.singleton c

/-- CPython `repr` of a `str`: single quotes unless the string holds a
single quote and no double quote, with backslash escapes. -/
def pyStrRepr (s : String) : String :=
  let sq : Char := Char.ofNat 39
  let dq : Char := Char.ofNat 34
  let quote := if s.contains sq ∧ ¬ s.contains dq then dq else sq
  String.singleton quote ++ String.join (s.toList.map (pyEscapeChar quote)) ++
    String.singleton quote

mutual

/-- CPython `repr` of an embedded value. -/
def pyRepr : PyVal → String
  | .none => "None"
  | .bool b => if b then "True" else "False"
  | .int n => toString n
  | .str s => pyStrRepr s
  | .list xs => "[" ++ pyReprList xs ++ "]"
  | .dict kvs => "\x7b" ++ pyReprDict kvs ++ "\x7d"

/-- Comma-joined `repr`s of the elements of a Python list. -/
def pyReprList : List PyVal → String
  | [] => ""
  | [x] => pyRepr x
  | x :: y :: rest => pyRepr x ++ ", " ++ pyReprList (y :: rest)

/-- Comma-joined `key: value` `repr`s of the entries of a Python dict. -/
def pyReprDict : List (String × PyVal) → String
  | [] => ""
  | [(k, v)] => pyStrRepr k ++ ": " ++ pyRepr v
  | (k, v) :: p :: rest => pyStrRepr k ++ ": " ++ pyRepr v ++ ", " ++ pyReprDict (p :: rest)

end

/-- CPython `str` of an embedded value, as an f-string interpolation renders
it: a string renders as itself, everything else as its `repr`. -/
def pyStr : PyVal → String
  | .str s => s
  | v => pyRepr v

/-- A Python exception escaping a piece of handler code, carrying the
exception message.  `except Exception` catches every such value. -/
inductive PyErr where
  | exception (msg : String)
deriving Repr, DecidableEq

/-- Python `try`/`except Exception` around an expression assigned to a
name: the expression's value when it evaluates normally, the fallback when
it raises. -/
def tryDefault (body : Except PyErr PyVal) (fallback : PyVal) : PyVal :=
  match body with
  | .ok v => v
  | .error _ => fallback

/-- The guarded `name` extraction of `handler.py`, line 6:
`event.get("name", "World") if isinstance(event, dict) else "World"`.
On adapted wire values `dict.get` is total, so the extraction always
evaluates normally. -/
def extractName_nodeps (event : PyVal) : Except PyErr PyVal :=
  match event with
  | .dict kvs => .ok ((lookupKey kvs "name").getD (.str "World"))
  | _ => .ok (.str "World")

/-- The `handler` of `src/examples/python/handler.py` (lines 4-9): extract
`name` under `try`/`except Exception` with fallback `"World"`, and return
the mapping from `"message"` to the f-string `Hello, {name}!`. -/
def handler_nodeps (event : PyVal) : Except PyErr PyVal :=
  let name := tryDefault (extractName_nodeps event) (.str "World")
  .ok (.dict [("message", .str ("Hello, " ++ pyStr name ++ "!"))])

/-- The guarded `name` extraction of `handler-w-deps.py`, line 7:
`event.get("name") if isinstance(event, dict) else None`; `dict.get`
without a default returns `None` for an absent key. -/
def extractName_deps (event : PyVal) : Except PyErr PyVal :=
  match event with
  | .dict kvs => .ok ((lookupKey kvs "name").getD .none)
  | _ => .ok .none

/-- The `handler` of `src/examples/python/handler-w-deps.py` (lines 5-10),
generic in the effect of the preloaded `greet` so the same body serves the
exception-passing semantics and the instrumented (call-counting) semantics:
extract `name` under `try`/`except Exception` with fallback `None`, call
`greet(name)` once, and return the mapping from `"message"` to its result.
The `greet` call sits outside the `try` block, exactly as in the source. -/
def handler_w_depsM {m : Type → Type} [Monad m] (greet : PyVal → m PyVal)
    (event : PyVal) : m PyVal := do
  let name := tryDefault (extractName_deps event) .none
  let g ← greet name
  pure (.dict [("message", g)])

/-- The `handler` of `handler-w-deps.py` under exception-passing semantics:
an exception raised by the preloaded `greet` propagates out of the handler
(the `try` block only covers the `name` extraction). -/
def handler_w_deps (greet : PyVal → Except PyErr PyVal) (event : PyVal) :
    Except PyErr PyVal :=
  handler_w_depsM greet event

/-- The Result Serializer's accepted shapes (spec §4.5): values composed
recursively of string-keyed mappings, ordered sequences, strings, numbers,
booleans and null. -/
inductive WireSafe : PyVal → Prop where
  | none : WireSafe .none
  | bool (b : Bool) : WireSafe (.bool b)
  | int (n : Int) : WireSafe (.int n)
  | str (s : String) : WireSafe (.str s)
  | list (xs : List PyVal) : (∀ x ∈ xs, WireSafe x) → WireSafe (.list xs)
  | dict (kvs : List (String × PyVal)) : (∀ p ∈ kvs, WireSafe p.2) →
      WireSafe (.dict kvs)

/-- A top-level function definition of a source unit: its bound name and its
number of positional parameters. -/
structure FunctionDef where
  name : String
  positionalParams : Nat
deriving Repr, DecidableEq

/-- The top-level structure of a Python source unit: the names it imports
from preloaded dependency modules, and the function definitions it binds at
module level (every such definition is callable). -/
structure SourceUnit where
  importedNames : List String
  functionDefs : List FunctionDef
deriving Repr, DecidableEq

/-- Top-level structure of `src/examples/python/handler.py`: no imports and
a single function definition `handler(event)`, whose body is embedded as
`handler_nodeps`. -/
def handlerUnit : SourceUnit :=
  ⟨[], [⟨"handler", 1⟩]⟩

/-- Top-level structure of `src/examples/python/handler-w-deps.py`: the line
`from greeter import greet` plus a single function definition
`handler(event)`, whose body is embedded as `handler_w_deps`. -/
def handlerWDepsUnit : SourceUnit :=
  ⟨["greet"], [⟨"handler", 1⟩]⟩

/-- The module-level mutable state a loaded specimen artifact carries across
warm invocations: both specimen modules bind only immutable objects (their
function definition and, for the dependency specimen, the imported `greet`),
and neither handler body assigns to any module-level name, so the state
space is a single point. -/
def ArtifactState : Type := Unit

/-- One warm invocation of the no-dependency artifact: the artifact state is
passed through (the handler body writes no module-level name). -/
def invokeWarm_nodeps (s : ArtifactState) (e : PyVal) :
    ArtifactState × Except PyErr PyVal :=
  (s, handler_nodeps e)

/-- A sequence of warm invocations of the no-dependency artifact, threading
the artifact state from each invocation to the next. -/
def runWarm_nodeps (s : ArtifactState) : List PyVal → List (Except PyErr PyVal)
  | [] => []
  | e :: es =>
    let (s2, r) := invokeWarm_nodeps s e
    r :: runWarm_nodeps s2 es

/-- One warm invocation of the dependency-using artifact with its fixed
preloaded `greet`. -/
def invokeWarm_deps (greet : PyVal → Except PyErr PyVal) (s : ArtifactState)
    (e : PyVal) : ArtifactState × Except PyErr PyVal :=
  (s, handler_w_deps greet e)

/-- A sequence of warm invocations of the dependency-using artifact,
threading the artifact state from each invocation to the next. -/
def runWarm_deps (greet : PyVal → Except PyErr PyVal) (s : ArtifactState) :
    List PyVal → List (Except PyErr PyVal)
  | [] => []
  | e :: es =>
    let (s2, r) := invokeWarm_deps greet s e
    r :: runWarm_deps greet s2 es

/-- Modelled from the spec: the single-flight load cache of the Handler
Loader (spec §4.2, §8) — the loader implementation is not part of the
repository, only its contract is.  `cache` holds the result of the one load
attempt once it exists (success or failure alike, both cached), `attempts`
counts the load attempts actually performed.  The load result type `α` is
abstract; for a valid manifest with acyclic, resolvable dependencies the
load function `doLoad` is a fixed computation whose result every caller is
to share. -/
structure LoaderState (α : Type) where
  cache : Option α
  attempts : Nat

/-- Modelled from the spec: one caller's request against the single-flight
cache — a cached result (success or failure) is returned without a new
attempt; an empty cache triggers the one load attempt and caches its
result. -/
def requestLoad {α : Type} (doLoad : Unit → α) (s : LoaderState α) :
    LoaderState α × α :=
  match s.cache with
  | Option.some r => (s, r)
  | Option.none =>
    let r := doLoad ()
    (⟨Option.some r, s.attempts + 1⟩, r)

/-- Modelled from the spec: `n` concurrent callers requesting the load of
the same function.  Single-flight construction is mutually exclusive per key
(spec §5), so the concurrent callers are served in some sequential order;
this folds that order and collects each caller's result. -/
def serveCallers {α : Type} (doLoad : Unit → α) (s : LoaderState α) :
    Nat → LoaderState α × List α
  | 0 => (s, [])
  | n + 1 =>
    let (s1, r) := requestLoad doLoad s
    let (s2, rs) := serveCallers doLoad s1 n
    (s2, r :: rs)

/-- The preloaded `greet` instrumented to log every call it receives: the
log records, in order, each argument `greet` is applied to, and the value
returned is the underlying function's. -/
def greetTraced (greet : PyVal → PyVal) (v : PyVal) :
    StateT (List PyVal) Id PyVal := do
  modify (fun log => log ++ [v])
  pure (greet v)

/-- `isinstance(event, dict)` against the event object held in a mutable
store, for the state-passing embedding of the handlers. -/
def evIsDict : StateM PyVal Bool := do
  let ev ← get
  pure ev.isDict

/-- `event.get(k, d)` against the event object held in a mutable store:
reads the store, raises on a non-mapping (as the attribute access would),
and never writes. -/
def evGet (k : String) (d : PyVal) : StateM PyVal (Except PyErr PyVal) := do
  let ev ← get
  match ev with
  | .dict kvs => pure (.ok ((lookupKey kvs k).getD d))
  | _ => pure (.error (.exception "object has no attribute"))

/-- `event[k] = v` against the event object held in a mutable store: the
mutation the handlers never perform, present so the operation vocabulary of
the embedding contains it. -/
def evSetItem (k : String) (v : PyVal) : StateM PyVal Unit := do
  let ev ← get
  match ev with
  | .dict kvs => set (PyVal.dict (kvs.filter (fun p => p.1 ≠ k) |>.cons (k, v)))
  | _ => pure ()

/-- The `handler` of `handler.py` in the state-passing embedding, where the
event is an object in a mutable store accessed through `evIsDict` and
`evGet`: the body performs only those reads. -/
def handler_nodepsS : StateM PyVal (Except PyErr PyVal) := do
  let isd ← evIsDict
  let nameExc ← if isd then evGet "name" (.str "World")
    else pure (.ok (.str "World"))
  let name := tryDefault nameExc (.str "World")
  pure (.ok (.dict [("message", .str ("Hello, " ++ pyStr name ++ "!"))]))

/-- The `handler` of `handler-w-deps.py` in the state-passing embedding,
where the event is an object in a mutable store accessed through `evIsDict`
and `evGet`: the body performs only those reads, and `greet` receives the
extracted value, not the event. -/
def handler_w_depsS (greet : PyVal → Except PyErr PyVal) :
    StateM PyVal (Except PyErr PyVal) := do
  let isd ← evIsDict
  let nameExc ← if isd then evGet "name" .none else pure (.ok .none)
  let name := tryDefault nameExc .none
  pure (Except.map (fun g => PyVal.dict [("message", g)]) (greet name))

/-- A concrete greeting dependency whose greeting function returns
`"Hi, <name>"` on string names, used to witness the dependency-specimen
claims. -/
def greetW : PyVal → Except PyErr PyVal
  | .str s => .ok (.str ("Hi, " ++ s))
  | _ => .ok (.str "Hi, stranger")

/-- C1: the no-dependency specimen's handler, applied to the event
`{"name": "Ada"}`, returns `{"message": "Hello, Ada!"}`; applied to the
empty mapping it returns `{"message": "Hello, World!"}`; applied to the
string `"not-a-mapping"` it returns `{"message": "Hello, World!"}` — in
each case a normally returned value (handler-internal defaulting), never an
error raised to the host. -/
theorem C1_nodeps_concrete_invocations :
    handler_nodeps (.dict [("name", .str "Ada")]) =
      .ok (.dict [("message", .str "Hello, Ada!")]) ∧
    handler_nodeps (.dict []) =
      .ok (.dict [("message", .str "Hello, World!")]) ∧
    handler_nodeps (.str "not-a-mapping") =
      .ok (.dict [("message", .str "Hello, World!")]) :=
  ⟨rfl, rfl, rfl⟩

/-- C2: for the dependency-using specimen's handler, when the preloaded
`greet` maps every string name `n` to `"Hi, " ++ n`, the event
`{"name": "Ada"}` yields `{"message": "Hi, Ada"}`, and every event that is
not a mapping falls back to the dependency's default-name behavior: the
result is `{"message": greet(None)}` (lifted over `greet`'s effect), not an
error of the handler's own. -/
theorem C2_deps_greeting_and_fallback (greet : PyVal → Except PyErr PyVal)
    (hg : ∀ s : String, greet (.str s) = .ok (.str ("Hi, " ++ s))) :
    handler_w_deps greet (.dict [("name", .str "Ada")]) =
      .ok (.dict [("message", .str "Hi, Ada")]) ∧
    ∀ event : PyVal, event.isDict = false →
      handler_w_deps greet event =
        Except.map (fun g => .dict [("message", g)]) (greet .none) := by
  constructor
  · show (greet (.str "Ada")).bind _ = _
    rw [hg "Ada"]
    rfl
  · intro event hev
    have hname : tryDefault (extractName_deps event) .none = .none := by
      cases event <;> simp [PyVal.isDict] at hev ⊢ <;>
        simp [extractName_deps, tryDefault]
    show (greet (tryDefault (extractName_deps event) .none)).bind _ = _
    rw [hname]
    cases greet .none <;> rfl

/-- C2 witness: the hypotheses of `C2_deps_greeting_and_fallback` hold for
the concrete dependency `greetW`, and the conclusions evaluate as stated at
the event `{"name": "Ada"}` and the non-mapping event `"oops"`. -/
theorem C2_deps_greeting_and_fallback_witness :
    handler_w_deps greetW (.dict [("name", .str "Ada")]) =
      .ok (.dict [("message", .str "Hi, Ada")]) ∧
    handler_w_deps greetW (.str "oops") =
      Except.map (fun g => .dict [("message", g)]) (greetW .none) :=
  ⟨(C2_deps_greeting_and_fallback greetW (fun _ => rfl)).1,
   (C2_deps_greeting_and_fallback greetW (fun _ => rfl)).2 (.str "oops") rfl⟩

/-- C3 counterexample: the claim says that for every behavior of the
preloaded `greet` no error escapes the dependency-using handler's body, but
the `greet` call sits outside the handler's `try` block: a `greet` that
raises makes the handler raise that very exception to the host boundary,
here at the concrete event `{"name": "Ada"}`. -/
theorem C3_counterexample_greet_raises :
    handler_w_deps (fun _ => .error (.exception "boom"))
      (.dict [("name", .str "Ada")]) = .error (.exception "boom") :=
  rfl

/-- C3 amended: the no-dependency handler never raises on any adapted wire
event, and the dependency-using handler raises only what `greet` itself
raises — whenever `greet` returns normally on every argument, the handler
returns normally on every adapted wire event (the handler's own extraction
errors are swallowed into defaults inside its `try` block). -/
theorem C3_amended_handlers_never_raise (event : PyVal)
    (greet : PyVal → Except PyErr PyVal)
    (hg : ∀ v : PyVal, ∃ w : PyVal, greet v = .ok w) :
    (∃ r : PyVal, handler_nodeps event = .ok r) ∧
    (∃ r : PyVal, handler_w_deps greet event = .ok r) := by
  refine ⟨⟨_, rfl⟩, ?_⟩
  obtain ⟨w, hw⟩ := hg (tryDefault (extractName_deps event) .none)
  refine ⟨.dict [("message", w)], ?_⟩
  show (greet (tryDefault (extractName_deps event) .none)).bind _ = _
  rw [hw]
  rfl

/-- C3 amended witness: `C3_amended_handlers_never_raise` applied at the
event `{"name": "Ada"}` and the identity-shaped `greet` that never
raises. -/
theorem C3_amended_handlers_never_raise_witness :
    (∃ r : PyVal, handler_nodeps (.dict [("name", .str "Ada")]) = .ok r) ∧
    (∃ r : PyVal, handler_w_deps (fun v => .ok v)
      (.dict [("name", .str "Ada")]) = .ok r) :=
  C3_amended_handlers_never_raise (.dict [("name", .str "Ada")])
    (fun v => .ok v) (fun v => ⟨v, rfl⟩)

/-- C4: on every adapted wire event — and, for the dependency-using
specimen, whenever the preloaded `greet` returns a string — each handler
returns a one-key mapping from `"message"` to a string, a value inside the
Result Serializer's accepted shapes. -/
theorem C4_results_serializable (event : PyVal)
    (greet : PyVal → Except PyErr PyVal)
    (hg : ∀ v : PyVal, ∃ s : String, greet v = .ok (.str s)) :
    (∃ s : String, handler_nodeps event = .ok (.dict [("message", .str s)]) ∧
      WireSafe (.dict [("message", .str s)])) ∧
    (∃ s : String, handler_w_deps greet event =
        .ok (.dict [("message", .str s)]) ∧
      WireSafe (.dict [("message", .str s)])) := by
  have hws : ∀ s : String, WireSafe (.dict [("message", .str s)]) := by
    intro s
    refine WireSafe.dict _ ?_
    intro p hp
    simp at hp
    rw [hp]
    exact WireSafe.str s
  refine ⟨⟨_, rfl, hws _⟩, ?_⟩
  obtain ⟨s, hs⟩ := hg (tryDefault (extractName_deps event) .none)
  refine ⟨s, ?_, hws s⟩
  show (greet (tryDefault (extractName_deps event) .none)).bind _ = _
  rw [hs]
  rfl

/-- C4 witness: `C4_results_serializable` applied at the event
`{"name": "Ada"}` and a `greet` returning the constant string `"Hi"`. -/
theorem C4_results_serializable_witness :
    (∃ s : String, handler_nodeps (.dict [("name", .str "Ada")]) =
        .ok (.dict [("message", .str s)]) ∧
      WireSafe (.dict [("message", .str s)])) ∧
    (∃ s : String, handler_w_deps (fun _ => .ok (.str "Hi"))
        (.dict [("name", .str "Ada")]) = .ok (.dict [("message", .str s)]) ∧
      WireSafe (.dict [("message", .str s)])) :=
  C4_results_serializable (.dict [("name", .str "Ada")])
    (fun _ => .ok (.str "Hi")) (fun _ => ⟨"Hi", rfl⟩)

/-- C9: the no-dependency handler's `"World"` default applies only when the
key `"name"` is absent: any value stored under `"name"` — null included —
is rendered by `str()` into the message, so the event `{"name": null}`
returns `{"message": "Hello, None!"}`. -/
theorem C9_present_name_always_rendered (kvs : List (String × PyVal))
    (v : PyVal) (h : lookupKey kvs "name" = Option.some v) :
    handler_nodeps (.dict kvs) =
      .ok (.dict [("message", .str ("Hello, " ++ pyStr v ++ "!"))]) ∧
    handler_nodeps (.dict [("name", .none)]) =
      .ok (.dict [("message", .str "Hello, None!")]) := by
  constructor
  · simp [handler_nodeps, extractName_nodeps, tryDefault, h]
  · rfl

/-- C9 witness: `C9_present_name_always_rendered` at the event
`{"name": null}` itself. -/
theorem C9_present_name_always_rendered_witness :
    handler_nodeps (.dict [("name", .none)]) =
      .ok (.dict [("message", .str ("Hello, " ++ pyStr .none ++ "!"))]) ∧
    handler_nodeps (.dict [("name", .none)]) =
      .ok (.dict [("message", .str "Hello, None!")]) :=
  C9_present_name_always_rendered [("name", .none)] .none rfl

/-- C5: each specimen source unit exposes exactly one entry point, it is
named `handler`, it is a top-level function definition (hence callable), and
it accepts exactly one positional argument. -/
theorem C5_single_entry_point :
    handlerUnit.functionDefs.map (fun d => (d.name, d.positionalParams)) =
      [("handler", 1)] ∧
    handlerWDepsUnit.functionDefs.map
      (fun d => (d.name, d.positionalParams)) = [("handler", 1)] :=
  ⟨rfl, rfl⟩

/-- A warm-invocation run of the no-dependency artifact is the independent
per-event application of the handler: the threaded artifact state feeds
nothing from one invocation into the next. -/
theorem runWarm_nodeps_eq_map (s : ArtifactState) (events : List PyVal) :
    runWarm_nodeps s events = events.map handler_nodeps := by
  induction events generalizing s with
  | nil => rfl
  | cons e es ih => simp [runWarm_nodeps, invokeWarm_nodeps, ih]

/-- A warm-invocation run of the dependency-using artifact is the
independent per-event application of the handler with its fixed `greet`. -/
theorem runWarm_deps_eq_map (greet : PyVal → Except PyErr PyVal)
    (s : ArtifactState) (events : List PyVal) :
    runWarm_deps greet s events = events.map (handler_w_deps greet) := by
  induction events generalizing s with
  | nil => rfl
  | cons e es ih => simp [runWarm_deps, invokeWarm_deps, ih]

/-- C6: across any warm-invocation sequence, each specimen's handler is a
pure, deterministic function of its own event (and the fixed `greet`): two
invocations anywhere in the sequence that receive equal events produce
equal results, and every run equals the invocation-independent per-event
application, so no invocation observes mutation left by a previous one
through the loaded artifact. -/
theorem C6_warm_invocations_independent (s : ArtifactState)
    (greet : PyVal → Except PyErr PyVal) (events : List PyVal)
    (i j : Nat) (e : PyVal)
    (hi : events[i]? = Option.some e) (hj : events[j]? = Option.some e) :
    (runWarm_nodeps s events)[i]? = (runWarm_nodeps s events)[j]? ∧
    (runWarm_deps greet s events)[i]? = (runWarm_deps greet s events)[j]? ∧
    runWarm_nodeps s events = events.map handler_nodeps ∧
    runWarm_deps greet s events = events.map (handler_w_deps greet) := by
  rw [runWarm_nodeps_eq_map, runWarm_deps_eq_map]
  refine ⟨?_, ?_, rfl, rfl⟩ <;> simp [List.getElem?_map, hi, hj]

/-- C6 witness: `C6_warm_invocations_independent` on the three-event run
where the first and third events are both the empty mapping. -/
theorem C6_warm_invocations_independent_witness :
    (runWarm_nodeps Unit.unit [.dict [], .str "x", .dict []])[0]? =
      (runWarm_nodeps Unit.unit [.dict [], .str "x", .dict []])[2]? ∧
    (runWarm_deps greetW Unit.unit [.dict [], .str "x", .dict []])[0]? =
      (runWarm_deps greetW Unit.unit [.dict [], .str "x", .dict []])[2]? ∧
    runWarm_nodeps Unit.unit [.dict [], .str "x", .dict []] =
      List.map handler_nodeps [.dict [], .str "x", .dict []] ∧
    runWarm_deps greetW Unit.unit [.dict [], .str "x", .dict []] =
      List.map (handler_w_deps greetW) [.dict [], .str "x", .dict []] :=
  C6_warm_invocations_independent Unit.unit greetW
    [.dict [], .str "x", .dict []] 0 2 (.dict []) rfl rfl

/-- Once the single-flight cache holds a result, any number of further
callers are served that cached result with no further load attempt. -/
theorem serveCallers_cached {α : Type} (doLoad : Unit → α) (r : α) (a : Nat)
    (n : Nat) :
    serveCallers doLoad ⟨Option.some r, a⟩ n =
      (⟨Option.some r, a⟩, List.replicate n r) := by
  induction n with
  | zero => rfl
  | succ m ih => simp [serveCallers, requestLoad, ih, List.replicate]

/-- C7 (spec-modelled): when `n` callers concurrently request the load of
the same function, exactly one load attempt is performed and all `n`
callers receive the identical result of that one attempt — the same success
or the same failure, whichever `doLoad` produces. -/
theorem C7_single_flight_loading {α : Type} (doLoad : Unit → α) (n : Nat)
    (h : 0 < n) :
    (serveCallers doLoad ⟨Option.none, 0⟩ n).1.attempts = 1 ∧
    (serveCallers doLoad ⟨Option.none, 0⟩ n).2 =
      List.replicate n (doLoad ()) := by
  obtain ⟨m, rfl⟩ : ∃ m, n = m + 1 :=
    ⟨n - 1, (Nat.succ_pred_eq_of_pos h).symm⟩
  simp [serveCallers, requestLoad, serveCallers_cached, List.replicate]

/-- C7 witness: `C7_single_flight_loading` for three callers and a load
that succeeds with the value 7. -/
theorem C7_single_flight_loading_witness :
    0 < 3 ∧
    ((serveCallers (fun _ => (Except.ok 7 : Except String Nat))
        ⟨Option.none, 0⟩ 3).1.attempts = 1 ∧
     (serveCallers (fun _ => (Except.ok 7 : Except String Nat))
        ⟨Option.none, 0⟩ 3).2 =
       List.replicate 3 (Except.ok 7)) :=
  ⟨by decide, C7_single_flight_loading (fun _ => Except.ok 7) 3 (by decide)⟩

/-- C8: on every mapping event and for every behavior of the preloaded
`greet`, the dependency-using handler returns the one-key mapping from
`"message"` to `greet v`, where `v` is the value stored under `"name"` when
that key is present and null when it is absent; the call log shows `greet`
called exactly once, receiving exactly that value. -/
theorem C8_greet_called_once_with_stored_value
    (kvs : List (String × PyVal)) (greet : PyVal → PyVal) :
    (handler_w_depsM (greetTraced greet) (.dict kvs)).run [] =
      (.dict [("message", greet ((lookupKey kvs "name").getD .none))],
       [(lookupKey kvs "name").getD .none]) :=
  rfl

/-- The state-passing embedding of the no-dependency handler computes the
same result as the direct embedding. -/
theorem handler_nodepsS_agrees (e : PyVal) :
    (handler_nodepsS.run e).1 = handler_nodeps e := by
  cases e <;> rfl

/-- The state-passing embedding of the dependency-using handler computes
the same result as the direct embedding. -/
theorem handler_w_depsS_agrees (greet : PyVal → Except PyErr PyVal)
    (e : PyVal) :
    ((handler_w_depsS greet).run e).1 = handler_w_deps greet e := by
  cases e <;> rfl

/-- C10: invoking either handler on a mapping event held in a mutable store
leaves the event exactly as it was: the bodies only read it (`isinstance`
and `get`), never add, remove or overwrite an entry. -/
theorem C10_event_left_unchanged (e : PyVal)
    (greet : PyVal → Except PyErr PyVal) (h : e.isDict = true) :
    (handler_nodepsS.run e).2 = e ∧
    ((handler_w_depsS greet).run e).2 = e := by
  cases e <;> exact ⟨rfl, rfl⟩

/-- C10 witness: `C10_event_left_unchanged` at the mapping event
`{"name": "Ada"}` with the concrete dependency `greetW`. -/
theorem C10_event_left_unchanged_witness :
    PyVal.isDict (.dict [("name", .str "Ada")]) = true ∧
    ((handler_nodepsS.run (.dict [("name", .str "Ada")])).2 =
        .dict [("name", .str "Ada")] ∧
     ((handler_w_depsS greetW).run (.dict [("name", .str "Ada")])).2 =
        .dict [("name", .str "Ada")]) :=
  ⟨rfl, C10_event_left_unchanged (.dict [("name", .str "Ada")]) greetW rfl⟩

end GraalFaaS
